import Mathlib

/-!
Shallow embedding of `scripts/setup_webhook.py`, an interactive script that
configures a Telegram bot webhook.  Interactive prompts are modelled by an
`Inputs` record holding the (already validated) answers the operator gave;
the external world (the AWS CLI subprocess, the three Telegram HTTPS
endpoints, the random bytes drawn by `secrets.token_urlsafe`) is an `Env`
record.  The observable behaviour of a run is the ordered list of network
calls made, the ordered list of strings passed to `print`, and whether an
exception escaped `interactive_setup` (such an exception is caught in
`main`, which prints an unexpected-error line and exits with code 1).
-/

mutual
/-- A Python value decoded by `json.loads` from the responses the script
reads: JSON strings, booleans, integers, null, arrays and objects (floats
never occur on the modelled code paths). -/
inductive JsonVal where
  | str (s : String)
  | bool (b : Bool)
  | num (n : Int)
  | null
  | arr (items : JsonItems)
  | obj (fields : JsonFields)
deriving DecidableEq

/-- The elements of a decoded JSON array, in order. -/
inductive JsonItems where
  | nil
  | cons (hd : JsonVal) (tl : JsonItems)
deriving DecidableEq

/-- The key/value pairs of a decoded JSON object, in insertion order.
`json.loads` never produces duplicate keys. -/
inductive JsonFields where
  | nil
  | cons (key : String) (val : JsonVal) (tl : JsonFields)
deriving DecidableEq
end

/-- Python truthiness (`if x:`) of a decoded JSON value: the empty string,
`False`, `0`, `None`, the empty list and the empty dict are falsy. -/
def pyTruthy : JsonVal → Bool
  | .str s => s != ""
  | .bool b => b
  | .num n => n != 0
  | .null => false
  | .arr .nil => false
  | .arr (.cons _ _) => true
  | .obj .nil => false
  | .obj (.cons _ _ _) => true

mutual
/-- Python `repr` of a decoded JSON value: single-quoted strings, `True` /
`False` / `None`, dicts and lists rendered as Python literals.  (String
escaping inside `repr` is not modelled; no value printed by the script on
the modelled paths needs it.) -/
def pyRepr : JsonVal → String
  | .str s => "\x27" ++ s ++ "\x27"
  | .bool b => if b then "True" else "False"
  | .num n => toString n
  | .null => "None"
  | .arr items => "[" ++ String.intercalate ", " (pyReprItems items) ++ "]"
  | .obj fields => "\x7b" ++ String.intercalate ", " (pyReprFields fields) ++ "\x7d"

/-- `repr` of each element of a decoded JSON array. -/
def pyReprItems : JsonItems → List String
  | .nil => []
  | .cons v tl => pyRepr v :: pyReprItems tl

/-- `repr` of each `key: value` pair of a decoded JSON object. -/
def pyReprFields : JsonFields → List String
  | .nil => []
  | .cons k v tl => ("\x27" ++ k ++ "\x27: " ++ pyRepr v) :: pyReprFields tl
end

/-- Python `str` of a decoded JSON value, as an f-string interpolates it:
a string is rendered verbatim, every other value as its `repr`. -/
def pyStr : JsonVal → String
  | .str s => s
  | v => pyRepr v

/-- `d.get(k)` on a decoded JSON object: the value at key `k`, if present. -/
def dictGet : JsonFields → String → Option JsonVal
  | .nil, _ => none
  | .cons k v tl, key => if k == key then some v else dictGet tl key

/-- `d.get(k, default)` on a decoded JSON object. -/
def dictGetD (fields : JsonFields) (key : String) (d : JsonVal) : JsonVal :=
  (dictGet fields key).getD d

/-- Truthiness of `result.get("ok")`: a missing key yields Python `None`,
which is falsy. -/
def okTruthy (body : JsonFields) : Bool :=
  match dictGet body "ok" with
  | some v => pyTruthy v
  | none => false

/-- Python truthiness of an `Optional[str]` (`None` and `""` are falsy). -/
def optStrTruthy : Option String → Bool
  | none => false
  | some s => s != ""

/-- Python `str.isdigit()` restricted to ASCII: true iff the string is
non-empty and every character is a decimal digit.  (Python also accepts
some non-ASCII Unicode digit characters; those are not modelled.) -/
def pyIsdigit (s : String) : Bool :=
  s != "" && s.data.all Char.isDigit

/-- The bot-token prompt validator, `lambda x: len(x) > 10 and x.isdigit()`
(setup_webhook.py line 119). -/
def token_validate (x : String) : Bool :=
  decide (x.length > 10) && pyIsdigit x

/-- The manual-URL prompt validator, `lambda x: x.startswith("https://")`
(setup_webhook.py line 209), stated over the underlying character list. -/
def url_validate (x : String) : Bool :=
  "https://".data.isPrefixOf x.data

/-- The manual-secret prompt validator, `lambda x: len(x) >= 8`
(setup_webhook.py line 228). -/
def secret_validate (x : String) : Bool :=
  decide (x.length ≥ 8)

/-- The base64 URL-safe alphabet used by `base64.urlsafe_b64encode`. -/
def b64urlAlphabet : List Char :=
  "ABCDEFGHIJKLMNOPQRSTUVWXYZabcdefghijklmnopqrstuvwxyz0123456789-_".data

/-- The alphabet character for a 6-bit group. -/
def b64urlChar (n : Nat) : Char :=
  b64urlAlphabet.getD n (Char.ofNat 65)

/-- `base64.urlsafe_b64encode` with the trailing `=` padding stripped, on a
list of byte values: each group of 3 bytes becomes 4 characters, a trailing
byte becomes 2 characters and two trailing bytes become 3 characters. -/
def b64urlNoPad : List Nat → List Char
  | [] => []
  | [b1] => [b64urlChar (b1 / 4), b64urlChar (b1 % 4 * 16)]
  | [b1, b2] =>
      [b64urlChar (b1 / 4), b64urlChar (b1 % 4 * 16 + b2 / 16), b64urlChar (b2 % 16 * 4)]
  | b1 :: b2 :: b3 :: rest =>
      b64urlChar (b1 / 4) :: b64urlChar (b1 % 4 * 16 + b2 / 16) ::
      b64urlChar (b2 % 16 * 4 + b3 / 64) :: b64urlChar (b3 % 64) :: b64urlNoPad rest

/-- `secrets.token_urlsafe` applied to the given random bytes: base64
URL-safe encoding without padding, decoded to text.  The script calls it
with 32 fresh random bytes (`secrets.token_urlsafe(32)`, line 223). -/
def token_urlsafe (bytes : List Nat) : String :=
  String.mk (b64urlNoPad bytes)

/-- One network call made by the script, with the data that identifies it:
the AWS CLI `get-function-url-config` subprocess, or one of the three
Telegram Bot API requests (whose URLs embed the bot token; `setWebhook`
also carries its JSON payload). -/
inductive NetCall where
  | awsLookup (functionName region : String)
  | postSetWebhook (bot_token : String) (payload : JsonFields)
  | getWebhookInfoCall (bot_token : String)
  | postDeleteWebhook (bot_token : String)
deriving DecidableEq

/-- Outcome of one HTTPS request to the Telegram API as seen inside the
`try` block of the calling function: either the decoded JSON object body,
or an exception `e` (network failure, timeout, non-JSON or non-object body)
whose `str(e)` is `msg`. -/
inductive HttpOutcome where
  | exc (msg : String)
  | resp (body : JsonFields)
deriving DecidableEq

/-- Outcome of the `aws lambda get-function-url-config` subprocess: a
non-zero exit (`CalledProcessError` with the given stderr text), a stdout
that is not valid JSON (`JSONDecodeError` whose `str` is `msg`), or a
successfully decoded JSON value. -/
inductive AwsResult where
  | procError (stderr : String)
  | badJson (msg : String)
  | parsed (config : JsonVal)
deriving DecidableEq

/-- What `get_function_url` does after its subprocess call: return a value
(Python `None` or the `FunctionUrl` field), or raise an uncaught exception
(`KeyError` when the decoded object lacks `"FunctionUrl"`, `TypeError` when
the decoded value is not an object — neither is caught by the function's
`except` clauses). -/
inductive LookupResult where
  | returned (v : Option JsonVal)
  | crash
deriving DecidableEq

/-- `get_function_url` (setup_webhook.py lines 21-46): runs the AWS CLI
subprocess, decodes its stdout and returns the `FunctionUrl` field.  Yields
the recorded subprocess call, the error lines it prints, and its result. -/
def get_function_url (functionName region : String) (aws : AwsResult) :
    NetCall × List String × LookupResult :=
  (NetCall.awsLookup functionName region,
   match aws with
   | .procError stderr =>
       (["❌ Error getting function URL: " ++ stderr], .returned none)
   | .badJson msg =>
       (["❌ Error parsing function URL response: " ++ msg], .returned none)
   | .parsed config =>
       match config with
       | .obj fields =>
           match dictGet fields "FunctionUrl" with
           | some v => ([], .returned (some v))
           | none => ([], .crash)
       | _ => ([], .crash))

/-- The request body `set_webhook` builds (lines 55-57): `{"url": ...}`,
with `secret_token` added only when the secret is truthy. -/
def setWebhookPayload (webhook_url : JsonVal) (secret_token : Option String) : JsonFields :=
  match secret_token with
  | some s =>
      if s != "" then .cons "url" webhook_url (.cons "secret_token" (.str s) .nil)
      else .cons "url" webhook_url .nil
  | none => .cons "url" webhook_url .nil

/-- `set_webhook` (lines 49-69): posts the payload to `/setWebhook` and
reads the response.  Yields the recorded call and the `(success, message)`
pair the Python function returns. -/
def set_webhook (bot_token : String) (webhook_url : JsonVal) (secret_token : Option String)
    (out : HttpOutcome) : NetCall × Bool × JsonVal :=
  (NetCall.postSetWebhook bot_token (setWebhookPayload webhook_url secret_token),
   match out with
   | .exc m => (false, .str m)
   | .resp body =>
       if okTruthy body then (true, .str "Webhook set successfully!")
       else (false, dictGetD body "description" (.str "Unknown error")))

/-- `get_webhook_info` (lines 72-88): GETs `/getWebhookInfo`.  On an `ok`
response it returns `result["result"]`; if that key is missing the
`KeyError` is caught by the same `except` and `str(KeyError("result"))`,
which is `'result'`, becomes the failure message. -/
def get_webhook_info (bot_token : String) (out : HttpOutcome) : NetCall × Bool × JsonVal :=
  (NetCall.getWebhookInfoCall bot_token,
   match out with
   | .exc m => (false, .str m)
   | .resp body =>
       if okTruthy body then
         match dictGet body "result" with
         | some v => (true, v)
         | none => (false, .str "\x27result\x27")
       else (false, dictGetD body "description" (.str "Unknown error")))

/-- `delete_webhook` (lines 91-107): posts to `/deleteWebhook` with no
body. -/
def delete_webhook (bot_token : String) (out : HttpOutcome) : NetCall × Bool × JsonVal :=
  (NetCall.postDeleteWebhook bot_token,
   match out with
   | .exc m => (false, .str m)
   | .resp body =>
       if okTruthy body then (true, .str "Webhook deleted successfully!")
       else (false, dictGetD body "description" (.str "Unknown error")))

/-- The action chosen at the `What would you like to do?` select prompt. -/
inductive MenuAction where
  | set
  | info
  | delete
  | test
deriving DecidableEq

/-- The choice at the `How do you want to get the webhook URL?` prompt. -/
inductive UrlSource where
  | auto
  | manual
deriving DecidableEq

/-- The operator's answers to the interactive prompts, in the order the
script asks them.  Text answers are the values the prompt library returns
after its validate/re-prompt loop, so they satisfy the corresponding
validator; theorems state that as an explicit hypothesis where it
matters. -/
structure Inputs where
  bot_token : String
  action : MenuAction
  deleteConfirm : Bool
  webhook_source : UrlSource
  function_name : String
  region : String
  manual_url : String
  use_secret : Bool
  generate_secret : Bool
  manual_secret : String
  finalConfirm : Bool
deriving DecidableEq

/-- The external world for one run: the AWS CLI outcome, the outcome of
each Telegram endpoint (keyed by endpoint, since the script calls each at
most once), and the bytes `os.urandom` produces inside
`secrets.token_urlsafe(32)`. -/
structure Env where
  aws : AwsResult
  http_set : HttpOutcome
  http_info : HttpOutcome
  http_delete : HttpOutcome
  randomBytes : List Nat
deriving DecidableEq

/-- The observable result of one `interactive_setup` run: the network calls
made in order, the strings printed in order, and whether an exception
escaped (to be caught in `main`). -/
structure RunResult where
  calls : List NetCall
  lines : List String
  crashed : Bool
deriving DecidableEq

/-- The two banner lines printed at the top of `interactive_setup`. -/
def headerLines : List String :=
  ["🤖 Telegram Webhook Setup for Second Brain", String.mk (List.replicate 50 '=')]

/-- The secret token the set flow attaches (lines 218-230): `None` when the
operator declines, the generated `secrets.token_urlsafe(32)` value when they
accept generation, else the manually entered (validated) secret. -/
def chosenSecret (inp : Inputs) (env : Env) : Option String :=
  if inp.use_secret then
    if inp.generate_secret then some (token_urlsafe env.randomBytes)
    else some inp.manual_secret
  else none

/-- The line printed while choosing the secret (line 224): only the
generated token is echoed. -/
def secretLines (inp : Inputs) (env : Env) : List String :=
  if inp.use_secret then
    if inp.generate_secret then
      ["🔑 Generated secret token: " ++ token_urlsafe env.randomBytes]
    else []
  else []

/-- The configuration summary block (lines 233-236). -/
def summaryLines (inp : Inputs) (webhook_url : JsonVal) (secret_token : Option String) :
    List String :=
  ["\n📋 Webhook Configuration Summary:",
   "   Bot Token: " ++ inp.bot_token.take 15 ++ "...",
   "   Webhook URL: " ++ pyStr webhook_url,
   "   Secret Token: " ++ (if optStrTruthy secret_token then "Yes" else "No")]

/-- The tail of the set flow once `webhook_url` is resolved (lines
213-253): secret choice, summary, final confirmation, and the `setWebhook`
call with its success / failure printing.  `preCalls` and `preLines` are
the calls and prints already accumulated. -/
def setFlowAfterUrl (inp : Inputs) (env : Env) (preCalls : List NetCall)
    (preLines : List String) (webhook_url : JsonVal) : RunResult :=
  let secret_token := chosenSecret inp env
  let pre := preLines ++ secretLines inp env ++ summaryLines inp webhook_url secret_token
  if !inp.finalConfirm then
    { calls := preCalls, lines := pre ++ ["❌ Cancelled."], crashed := false }
  else
    let r := set_webhook inp.bot_token webhook_url secret_token env.http_set
    if r.2.1 then
      { calls := preCalls ++ [r.1]
        lines := pre ++
          ["⏳ Setting webhook...", "✅ Webhook set successfully!",
           "   URL: " ++ pyStr webhook_url] ++
          (if optStrTruthy secret_token then ["   Secret token configured"] else []) ++
          ["\n🎉 Your Second Brain bot is ready to receive messages!"]
        crashed := false }
    else
      { calls := preCalls ++ [r.1]
        lines := pre ++
          ["⏳ Setting webhook...", "❌ Failed to set webhook: " ++ pyStr r.2.2]
        crashed := false }

/-- The detailed field block the info action prints (lines 138-145). -/
def infoFieldLines (fields : JsonFields) : List String :=
  ["\n📋 Current webhook info:",
   "   URL: " ++ pyStr (dictGetD fields "url" (.str "Not set")),
   "   Has custom certificate: " ++ pyStr (dictGetD fields "has_custom_certificate" (.bool false)),
   "   Pending updates: " ++ pyStr (dictGetD fields "pending_update_count" (.num 0)),
   "   Last error: " ++ pyStr (dictGetD fields "last_error_message" (.str "None")),
   "   Custom secret: " ++ (if pyTruthy (dictGetD fields "secret_token" .null) then "Yes" else "No")]

/-- `interactive_setup` (lines 110-253), as a function of the operator's
validated prompt answers and the environment.  `result.get(...)` applied to
a non-object `result` value raises an uncaught `AttributeError`, which is
modelled by `crashed := true` in the info and test branches. -/
def interactive_setup (inp : Inputs) (env : Env) : RunResult :=
  match inp.action with
  | .info =>
      let r := get_webhook_info inp.bot_token env.http_info
      if r.2.1 then
        match r.2.2 with
        | .obj fields =>
            { calls := [r.1], lines := headerLines ++ infoFieldLines fields, crashed := false }
        | _ =>
            { calls := [r.1], lines := headerLines ++ ["\n📋 Current webhook info:"],
              crashed := true }
      else
        { calls := [r.1]
          lines := headerLines ++ ["❌ Failed to get webhook info: " ++ pyStr r.2.2]
          crashed := false }
  | .delete =>
      if inp.deleteConfirm then
        let r := delete_webhook inp.bot_token env.http_delete
        if r.2.1 then
          { calls := [r.1], lines := headerLines ++ ["✅ " ++ pyStr r.2.2], crashed := false }
        else
          { calls := [r.1]
            lines := headerLines ++ ["❌ Failed to delete webhook: " ++ pyStr r.2.2]
            crashed := false }
      else
        { calls := [], lines := headerLines ++ ["❌ Cancelled."], crashed := false }
  | .test =>
      let pre := headerLines ++ ["🔍 Testing bot connection..."]
      let r := get_webhook_info inp.bot_token env.http_info
      if r.2.1 then
        match r.2.2 with
        | .obj fields =>
            { calls := [r.1]
              lines := pre ++
                ["✅ Bot is accessible! Webhook URL: " ++
                  pyStr (dictGetD fields "url" (.str "Not configured"))]
              crashed := false }
        | _ => { calls := [r.1], lines := pre, crashed := true }
      else
        { calls := [r.1]
          lines := pre ++ ["❌ Failed to connect to bot: " ++ pyStr r.2.2]
          crashed := false }
  | .set =>
      let pre := headerLines ++ ["🔧 Setting up webhook..."]
      match inp.webhook_source with
      | .auto =>
          let pre2 := pre ++ ["🔍 Getting function URL from AWS..."]
          let g := get_function_url inp.function_name inp.region env.aws
          match g.2.2 with
          | .crash => { calls := [g.1], lines := pre2 ++ g.2.1, crashed := true }
          | .returned o =>
              match o with
              | some v =>
                  if pyTruthy v then setFlowAfterUrl inp env [g.1] (pre2 ++ g.2.1) v
                  else
                    { calls := [g.1]
                      lines := pre2 ++ g.2.1 ++
                        ["❌ Could not get function URL. Please check AWS CLI configuration and permissions."]
                      crashed := false }
              | none =>
                  { calls := [g.1]
                    lines := pre2 ++ g.2.1 ++
                      ["❌ Could not get function URL. Please check AWS CLI configuration and permissions."]
                    crashed := false }
      | .manual => setFlowAfterUrl inp env [] pre (.str inp.manual_url)

/-- `main` (lines 256-265): exit code of the process.  `interrupted` models
a `KeyboardInterrupt` (Ctrl-C) raised while `interactive_setup` runs; an
exception escaping `interactive_setup` is caught and turned into
`sys.exit(1)`; otherwise `main` returns normally and the process exits 0. -/
def mainExit (interrupted : Bool) (inp : Inputs) (env : Env) : Nat :=
  if interrupted then 1
  else if (interactive_setup inp env).crashed then 1
  else 0

/-- A network call that mutates the remote webhook registration:
`setWebhook` or `deleteWebhook`. -/
def isMutationCall : NetCall → Bool
  | .postSetWebhook _ _ => true
  | .postDeleteWebhook _ => true
  | _ => false

/-- A sample set of prompt answers used by the concrete scenarios below:
a valid all-digits bot token, the "set" action with the auto (AWS) URL
source and the default function name and region, a valid manual URL, no
secret token, and a confirming final answer. -/
def sampleInputs : Inputs :=
  { bot_token := "12345678901"
    action := .set
    deleteConfirm := false
    webhook_source := .auto
    function_name := "SecondBrainProcessor"
    region := "us-east-1"
    manual_url := "https://x.test/hook"
    use_secret := false
    generate_secret := false
    manual_secret := "hunter2hunter2"
    finalConfirm := true }

/-- A sample environment: the AWS CLI exits 0 with a parseable JSON object
that lacks the `FunctionUrl` field, every Telegram endpoint answers
`ok:true` (`getWebhookInfo` with a result carrying a URL), and the random
bytes are all zero. -/
def sampleEnv : Env :=
  { aws := .parsed (.obj (.cons "AuthType" (.str "NONE") .nil))
    http_set := .resp (.cons "ok" (.bool true) .nil)
    http_info := .resp (.cons "ok" (.bool true)
      (.cons "result" (.obj (.cons "url" (.str "https://e.com") .nil)) .nil))
    http_delete := .resp (.cons "ok" (.bool true) .nil)
    randomBytes := List.replicate 32 0 }

/-- An environment in which every external operation fails: the AWS CLI
exits non-zero, `setWebhook` answers `ok:false` without a description,
`getWebhookInfo` raises a transport timeout, and `deleteWebhook` answers
`ok:false` with a description. -/
def failEnv : Env :=
  { aws := .procError "AccessDenied"
    http_set := .resp (.cons "ok" (.bool false) .nil)
    http_info := .exc "HTTPSConnectionPool: Read timed out."
    http_delete := .resp (.cons "ok" (.bool false)
      (.cons "description" (.str "Unauthorized") .nil))
    randomBytes := List.replicate 32 0 }

/-- Length of the padding-free base64 encoding of `n` bytes:
`(4 * n + 2) / 3`. -/
theorem b64urlNoPad_length (l : List Nat) :
    (b64urlNoPad l).length = (4 * l.length + 2) / 3 := by
  induction l using b64urlNoPad.induct <;> simp [b64urlNoPad, *] <;> omega

/-- `secrets.token_urlsafe` on 32 random bytes always yields a 43-character
string. -/
theorem token_urlsafe_length (bytes : List Nat) (h : bytes.length = 32) :
    (token_urlsafe bytes).length = 43 := by
  show (b64urlNoPad bytes).length = 43
  rw [b64urlNoPad_length, h]

/-- The info action performs exactly one network call, the
`getWebhookInfo` request, whatever the environment answers. -/
theorem calls_info (inp : Inputs) (env : Env) (ha : inp.action = .info) :
    (interactive_setup inp env).calls = [NetCall.getWebhookInfoCall inp.bot_token] := by
  cases hi : env.http_info <;>
    simp only [interactive_setup, ha, get_webhook_info, hi] <;>
    repeat first | rfl | split

/-- The test action performs exactly one network call, the
`getWebhookInfo` request, whatever the environment answers. -/
theorem calls_test (inp : Inputs) (env : Env) (ha : inp.action = .test) :
    (interactive_setup inp env).calls = [NetCall.getWebhookInfoCall inp.bot_token] := by
  cases hi : env.http_info <;>
    simp only [interactive_setup, ha, get_webhook_info, hi] <;>
    repeat first | rfl | split

/-- The delete action calls `deleteWebhook` exactly when the confirmation
prompt is answered positively, and makes no other network call. -/
theorem calls_delete (inp : Inputs) (env : Env) (ha : inp.action = .delete) :
    (interactive_setup inp env).calls
      = if inp.deleteConfirm then [NetCall.postDeleteWebhook inp.bot_token] else [] := by
  cases hc : inp.deleteConfirm <;> cases hd : env.http_delete <;>
    simp only [interactive_setup, ha, hc, delete_webhook, hd, if_true, if_false,
      Bool.false_eq_true, Bool.true_eq_false] <;>
    repeat first | rfl | split

/-- The tail of the set flow appends the `setWebhook` call exactly when the
final confirmation is answered positively. -/
theorem setFlowAfterUrl_calls (inp : Inputs) (env : Env) (pc : List NetCall)
    (pl : List String) (u : JsonVal) :
    (setFlowAfterUrl inp env pc pl u).calls
      = if inp.finalConfirm then
          pc ++ [NetCall.postSetWebhook inp.bot_token
                  (setWebhookPayload u (chosenSecret inp env))]
        else pc := by
  cases hF : inp.finalConfirm <;>
    simp only [setFlowAfterUrl, hF, Bool.not_true, Bool.not_false, if_true, if_false,
      Bool.false_eq_true, Bool.true_eq_false] <;>
    repeat first | rfl | split

/-- No exception can escape the tail of the set flow. -/
theorem setFlowAfterUrl_crashed (inp : Inputs) (env : Env) (pc : List NetCall)
    (pl : List String) (u : JsonVal) :
    (setFlowAfterUrl inp env pc pl u).crashed = false := by
  cases hF : inp.finalConfirm <;>
    simp only [setFlowAfterUrl, hF, Bool.not_true, Bool.not_false, if_true, if_false,
      Bool.false_eq_true, Bool.true_eq_false] <;>
    repeat first | rfl | split

/-- With the auto URL source and an unconfirmed final prompt, the set flow
makes exactly the one AWS lookup call. -/
theorem calls_set_auto_unconfirmed (inp : Inputs) (env : Env) (ha : inp.action = .set)
    (hs : inp.webhook_source = .auto) (hc : inp.finalConfirm = false) :
    (interactive_setup inp env).calls = [NetCall.awsLookup inp.function_name inp.region] := by
  cases haws : env.aws
  case procError e => simp [interactive_setup, ha, hs, get_function_url, haws]
  case badJson e => simp [interactive_setup, ha, hs, get_function_url, haws]
  case parsed config =>
    cases config <;>
      simp only [interactive_setup, ha, hs, get_function_url, haws] <;>
      repeat first | rfl | (rw [setFlowAfterUrl_calls, hc]; simp) | split

/-- If the request body carries a `secret_token` key with value `s`, the
secret passed to `set_webhook` was `Some s`. -/
theorem setWebhookPayload_secret (wu : JsonVal) (cs : Option String) (s : String)
    (h : dictGet (setWebhookPayload wu cs) "secret_token" = some (.str s)) :
    cs = some s := by
  match cs with
  | none => simp [setWebhookPayload, dictGet] at h
  | some t =>
      by_cases ht : t = ""
      · subst ht
        simp [setWebhookPayload, dictGet] at h
      · simp only [setWebhookPayload, bne_iff_ne, ne_eq, ht, not_false_eq_true, if_true] at h
        have hd : dictGet (.cons "url" wu (.cons "secret_token" (.str t) .nil)) "secret_token"
            = some (.str t) := rfl
        rw [hd] at h
        simp only [Option.some.injEq, JsonVal.str.injEq] at h
        rw [h]

/-- Every `setWebhook` call a run makes uses the bot token entered at the
prompt and a payload built by `setWebhookPayload` from some resolved URL
and the secret chosen in that run. -/
theorem postSetWebhook_payload_shape (inp : Inputs) (env : Env) (tok : String)
    (payload : JsonFields)
    (hmem : NetCall.postSetWebhook tok payload ∈ (interactive_setup inp env).calls) :
    tok = inp.bot_token ∧
    ∃ wu, payload = setWebhookPayload wu (chosenSecret inp env) := by
  cases ha : inp.action
  case info =>
    rw [calls_info inp env ha] at hmem
    simp at hmem
  case test =>
    rw [calls_test inp env ha] at hmem
    simp at hmem
  case delete =>
    rw [calls_delete inp env ha] at hmem
    cases hc : inp.deleteConfirm <;> rw [hc] at hmem <;> simp at hmem
  case set =>
    cases hs : inp.webhook_source
    case manual =>
      simp only [interactive_setup, ha, hs] at hmem
      rw [setFlowAfterUrl_calls] at hmem
      cases hF : inp.finalConfirm <;> rw [hF] at hmem <;> simp at hmem
      exact ⟨hmem.1, ⟨.str inp.manual_url, hmem.2⟩⟩
    case auto =>
      cases haws : env.aws <;>
        simp only [interactive_setup, ha, hs, get_function_url, haws] at hmem
      case procError e => simp at hmem
      case badJson e => simp at hmem
      case parsed config =>
        cases config <;> simp only [] at hmem
        case obj fields =>
          rcases hd : dictGet fields "FunctionUrl" with _ | v <;>
            simp only [hd] at hmem
          · simp at hmem
          · by_cases hv : pyTruthy v
            · simp only [hv, if_true] at hmem
              rw [setFlowAfterUrl_calls] at hmem
              cases hF : inp.finalConfirm <;> rw [hF] at hmem <;> simp at hmem
              exact ⟨hmem.1, ⟨v, hmem.2⟩⟩
            · simp only [hv, Bool.false_eq_true, if_false] at hmem
              simp at hmem
        all_goals simp at hmem

/-- Claim C1, counterexample: the string `"1"` is non-empty and its first
character is a digit, yet the bot-token validator rejects it (the code
requires length strictly greater than 10), so "accepts iff non-empty and
digit-leading" is false at `"1"`. -/
theorem token_validate_digit_prefix_counterexample :
    token_validate "1" = false ∧ "1" ≠ "" ∧ ("1".data.headD 'x').isDigit = true := by
  decide

/-- Claim C1, amended: the bot-credential validator accepts a string iff
its length is strictly greater than 10 and every one of its characters is a
decimal digit; every shorter string and every string containing a non-digit
is rejected at the prompt, before any network call is attempted. -/
theorem token_validate_iff (x : String) :
    token_validate x = true ↔ 10 < x.length ∧ ∀ c ∈ x.data, c.isDigit = true := by
  constructor
  · intro h
    simp [token_validate, pyIsdigit, List.all_eq_true] at h
    exact ⟨h.1, h.2.2⟩
  · rintro ⟨h1, h2⟩
    have hne : x ≠ "" := by
      intro he
      rw [he] at h1
      simp at h1
    simp [token_validate, pyIsdigit, List.all_eq_true, hne, h1]
    exact h2

/-- Claim C2: when the AWS lookup subprocess succeeds and its output parses
to a JSON object without a `FunctionUrl` field, the run crashes (the
uncaught `KeyError` escapes `interactive_setup`), the only network call is
the AWS lookup — in particular `setWebhook` is never called — and the
process exits 1 through the generic unexpected-error handler instead of
aborting with the lookup-failure message. -/
theorem missing_function_url_field_crashes :
    (interactive_setup sampleInputs sampleEnv).crashed = true ∧
    (interactive_setup sampleInputs sampleEnv).calls
      = [NetCall.awsLookup "SecondBrainProcessor" "us-east-1"] ∧
    ((interactive_setup sampleInputs sampleEnv).calls.all fun c => !isMutationCall c) = true ∧
    mainExit false sampleInputs sampleEnv = 1 := by
  decide

/-- Claim C3: on a provider response `{ok:false, description:"X"}`, each of
`setWebhook`, `getWebhookInfo` and `deleteWebhook` returns failure with
message exactly the string `X`, verbatim. -/
theorem api_failure_description_verbatim (tok X : String) (u : JsonVal) (sec : Option String) :
    (set_webhook tok u sec
        (.resp (.cons "ok" (.bool false) (.cons "description" (.str X) .nil)))).2
      = (false, .str X) ∧
    (get_webhook_info tok
        (.resp (.cons "ok" (.bool false) (.cons "description" (.str X) .nil)))).2
      = (false, .str X) ∧
    (delete_webhook tok
        (.resp (.cons "ok" (.bool false) (.cons "description" (.str X) .nil)))).2
      = (false, .str X) :=
  ⟨rfl, rfl, rfl⟩

/-- Claim C4: a negative answer at the delete confirmation or at the final
set confirmation leaves the run without any webhook-mutating network call:
neither `deleteWebhook` nor `setWebhook` appears among the calls made. -/
theorem unconfirmed_step_no_mutation (inp : Inputs) (env : Env)
    (h : (inp.action = .delete ∧ inp.deleteConfirm = false) ∨
         (inp.action = .set ∧ inp.finalConfirm = false)) :
    ((interactive_setup inp env).calls.all fun c => !isMutationCall c) = true := by
  rcases h with ⟨ha, hc⟩ | ⟨ha, hc⟩
  · rw [calls_delete inp env ha, hc]
    rfl
  · cases hs : inp.webhook_source
    case auto =>
      rw [calls_set_auto_unconfirmed inp env ha hs hc]
      rfl
    case manual =>
      have hcalls : (interactive_setup inp env).calls = [] := by
        simp only [interactive_setup, ha, hs]
        rw [setFlowAfterUrl_calls, hc]
        rfl
      rw [hcalls]
      rfl

/-- Claim C4, witness: a concrete run that answers the delete confirmation
negatively makes no mutating call. -/
theorem unconfirmed_step_no_mutation_witness :
    ((interactive_setup { sampleInputs with action := .delete } sampleEnv).calls.all
      fun c => !isMutationCall c) = true :=
  unconfirmed_step_no_mutation _ _ (Or.inl ⟨rfl, rfl⟩)

/-- Claim C5: choosing "set" with a manual validated HTTPS URL, declining
the secret token and confirming sends exactly one `setWebhook` call whose
body holds exactly the `url` key (no `secret_token` key), and on an
`{ok:true}` response the run prints the success line and completes without
an escaping exception. -/
theorem manual_set_without_secret (inp : Inputs) (env : Env)
    (hact : inp.action = .set) (hsrc : inp.webhook_source = .manual)
    (hurl : url_validate inp.manual_url = true)
    (hsec : inp.use_secret = false) (hconf : inp.finalConfirm = true)
    (hresp : env.http_set = .resp (.cons "ok" (.bool true) .nil)) :
    (interactive_setup inp env).calls
      = [NetCall.postSetWebhook inp.bot_token
          (.cons "url" (.str inp.manual_url) .nil)] ∧
    "✅ Webhook set successfully!" ∈ (interactive_setup inp env).lines ∧
    (interactive_setup inp env).crashed = false := by
  have hcs : chosenSecret inp env = none := by simp [chosenSecret, hsec]
  refine ⟨?_, ?_, ?_⟩
  · simp only [interactive_setup, hact, hsrc]
    rw [setFlowAfterUrl_calls, hconf, hcs]
    rfl
  · simp only [interactive_setup, hact, hsrc, setFlowAfterUrl, hconf, hcs, hresp,
      set_webhook, okTruthy, dictGet, Bool.not_true, Bool.false_eq_true, if_false]
    simp [pyTruthy]
  · simp only [interactive_setup, hact, hsrc]
    exact setFlowAfterUrl_crashed inp env _ _ _

/-- Claim C5, witness: the concrete manual-URL, no-secret, confirmed run
against an `{ok:true}` endpoint. -/
theorem manual_set_without_secret_witness :
    (interactive_setup { sampleInputs with webhook_source := .manual } sampleEnv).calls
      = [NetCall.postSetWebhook "12345678901"
          (.cons "url" (.str "https://x.test/hook") .nil)] ∧
    "✅ Webhook set successfully!"
      ∈ (interactive_setup { sampleInputs with webhook_source := .manual } sampleEnv).lines ∧
    (interactive_setup { sampleInputs with webhook_source := .manual } sampleEnv).crashed
      = false :=
  manual_set_without_secret _ _ rfl rfl (by decide) rfl rfl rfl

/-- Claim C6: every secret token carried by a `setWebhook` request body is
at least 8 characters long, provided the manually entered secret passed its
prompt validator and the generated one was built from the 32 random bytes
`secrets.token_urlsafe(32)` draws (a generated token is 43 characters). -/
theorem secret_token_min_length (inp : Inputs) (env : Env)
    (hval : secret_validate inp.manual_secret = true)
    (hrand : env.randomBytes.length = 32)
    (tok : String) (payload : JsonFields) (s : String)
    (hmem : NetCall.postSetWebhook tok payload ∈ (interactive_setup inp env).calls)
    (hsec : dictGet payload "secret_token" = some (.str s)) :
    8 ≤ s.length := by
  obtain ⟨-, wu, rfl⟩ := postSetWebhook_payload_shape inp env tok payload hmem
  have hcs : chosenSecret inp env = some s := setWebhookPayload_secret wu _ s hsec
  unfold chosenSecret at hcs
  by_cases hu : inp.use_secret = true
  · rw [if_pos hu] at hcs
    by_cases hg : inp.generate_secret = true
    · rw [if_pos hg] at hcs
      have h := Option.some.inj hcs
      rw [← h, token_urlsafe_length env.randomBytes hrand]
      omega
    · rw [if_neg hg] at hcs
      have h := Option.some.inj hcs
      rw [← h]
      simpa [secret_validate] using hval
  · rw [if_neg hu] at hcs
    cases hcs

/-- Claim C6, witness: in a concrete run that generates the secret from 32
zero bytes, the secret attached to the `setWebhook` body is 43 ≥ 8
characters long. -/
theorem secret_token_min_length_witness :
    8 ≤ (token_urlsafe (List.replicate 32 0)).length :=
  secret_token_min_length
    { sampleInputs with webhook_source := .manual, use_secret := true, generate_secret := true }
    sampleEnv (by decide) (by decide) "12345678901"
    (.cons "url" (.str "https://x.test/hook")
      (.cons "secret_token" (.str (token_urlsafe (List.replicate 32 0))) .nil))
    (token_urlsafe (List.replicate 32 0)) (by decide) (by decide)

/-- Claim C7: the process exits 0 exactly when the run was not interrupted
and no exception escaped the flow, and the exit code is always 0 or 1 — in
particular an operator interrupt or an escaping exception gives 1. -/
theorem exit_code_semantics (interrupted : Bool) (inp : Inputs) (env : Env) :
    (mainExit interrupted inp env = 0 ↔
      interrupted = false ∧ (interactive_setup inp env).crashed = false) ∧
    (mainExit interrupted inp env = 0 ∨ mainExit interrupted inp env = 1) := by
  cases interrupted <;> by_cases h : (interactive_setup inp env).crashed <;>
    simp [mainExit, h]

/-- Claim C8, counterexample: with the same bot token and the same
`{ok:true}` provider response, the info and test actions make the same
single network call but print different text, so their observable console
outcome is not identical. -/
theorem info_test_observable_outcome_differs :
    (interactive_setup { sampleInputs with action := .info } sampleEnv).calls
      = (interactive_setup { sampleInputs with action := .test } sampleEnv).calls ∧
    (interactive_setup { sampleInputs with action := .info } sampleEnv).lines
      ≠ (interactive_setup { sampleInputs with action := .test } sampleEnv).lines := by
  decide

/-- Claim C8, amended: for every bot credential and every provider
response, the info and test actions each perform exactly one network call —
the non-mutating `getWebhookInfo` request — and crash under exactly the
same conditions, though their printed output differs. -/
theorem info_test_same_network_behavior (inp : Inputs) (env : Env) :
    (interactive_setup { inp with action := .info } env).calls
        = [NetCall.getWebhookInfoCall inp.bot_token] ∧
    (interactive_setup { inp with action := .test } env).calls
        = [NetCall.getWebhookInfoCall inp.bot_token] ∧
    isMutationCall (NetCall.getWebhookInfoCall inp.bot_token) = false ∧
    (interactive_setup { inp with action := .info } env).crashed
      = (interactive_setup { inp with action := .test } env).crashed := by
  refine ⟨calls_info _ _ rfl, calls_test _ _ rfl, rfl, ?_⟩
  cases hi : env.http_info
  case exc m => simp [interactive_setup, get_webhook_info, hi]
  case resp body =>
    by_cases hok : okTruthy body = true
    · rcases hr : dictGet body "result" with _ | v
      · simp [interactive_setup, get_webhook_info, hi, hok, hr]
      · cases v <;> simp [interactive_setup, get_webhook_info, hi, hok, hr]
    · simp [interactive_setup, get_webhook_info, hi, hok]

/-- Claim C9: on a provider response `{ok:false}` without a description
field, each of `setWebhook`, `getWebhookInfo` and `deleteWebhook` returns
failure with message exactly `"Unknown error"`. -/
theorem missing_description_unknown_error (tok : String) (u : JsonVal) (sec : Option String) :
    (set_webhook tok u sec (.resp (.cons "ok" (.bool false) .nil))).2
      = (false, .str "Unknown error") ∧
    (get_webhook_info tok (.resp (.cons "ok" (.bool false) .nil))).2
      = (false, .str "Unknown error") ∧
    (delete_webhook tok (.resp (.cons "ok" (.bool false) .nil))).2
      = (false, .str "Unknown error") :=
  ⟨rfl, rfl, rfl⟩

/-- Claim C10: when a webhook API operation reports failure (provider
`ok:false` or a transport error), the run prints the corresponding failure
line and the process still exits 0; a non-zero exit only arises from an
interrupt or from an exception escaping the flow. -/
theorem api_failure_prints_and_exits_zero (inp : Inputs) (env : Env) :
    ((inp.action = .delete ∧ inp.deleteConfirm = true ∧
        (delete_webhook inp.bot_token env.http_delete).2.1 = false) →
      ("❌ Failed to delete webhook: "
          ++ pyStr (delete_webhook inp.bot_token env.http_delete).2.2)
          ∈ (interactive_setup inp env).lines ∧
        mainExit false inp env = 0) ∧
    ((inp.action = .info ∧ (get_webhook_info inp.bot_token env.http_info).2.1 = false) →
      ("❌ Failed to get webhook info: "
          ++ pyStr (get_webhook_info inp.bot_token env.http_info).2.2)
          ∈ (interactive_setup inp env).lines ∧
        mainExit false inp env = 0) ∧
    ((inp.action = .set ∧ inp.webhook_source = .manual ∧ inp.finalConfirm = true ∧
        (set_webhook inp.bot_token (.str inp.manual_url) (chosenSecret inp env)
            env.http_set).2.1 = false) →
      ("❌ Failed to set webhook: "
          ++ pyStr (set_webhook inp.bot_token (.str inp.manual_url) (chosenSecret inp env)
              env.http_set).2.2)
          ∈ (interactive_setup inp env).lines ∧
        mainExit false inp env = 0) ∧
    (∀ i : Bool, mainExit i inp env ≠ 0 →
      i = true ∨ (interactive_setup inp env).crashed = true) := by
  refine ⟨?_, ?_, ?_, ?_⟩
  · rintro ⟨ha, hc, hfail⟩
    have hrun : interactive_setup inp env =
        { calls := [(delete_webhook inp.bot_token env.http_delete).1]
          lines := headerLines ++
            ["❌ Failed to delete webhook: "
              ++ pyStr (delete_webhook inp.bot_token env.http_delete).2.2]
          crashed := false } := by
      simp [interactive_setup, ha, hc, hfail]
    rw [hrun]
    refine ⟨by simp, ?_⟩
    simp [mainExit, hrun]
  · rintro ⟨ha, hfail⟩
    have hrun : interactive_setup inp env =
        { calls := [(get_webhook_info inp.bot_token env.http_info).1]
          lines := headerLines ++
            ["❌ Failed to get webhook info: "
              ++ pyStr (get_webhook_info inp.bot_token env.http_info).2.2]
          crashed := false } := by
      simp [interactive_setup, ha, hfail]
    rw [hrun]
    refine ⟨by simp, ?_⟩
    simp [mainExit, hrun]
  · rintro ⟨ha, hs, hF, hfail⟩
    have hrun : interactive_setup inp env =
        { calls := [(set_webhook inp.bot_token (.str inp.manual_url) (chosenSecret inp env)
            env.http_set).1]
          lines := (headerLines ++ ["🔧 Setting up webhook..."]) ++ secretLines inp env ++
            summaryLines inp (.str inp.manual_url) (chosenSecret inp env) ++
            ["⏳ Setting webhook...",
             "❌ Failed to set webhook: "
               ++ pyStr (set_webhook inp.bot_token (.str inp.manual_url) (chosenSecret inp env)
                   env.http_set).2.2]
          crashed := false } := by
      simp [interactive_setup, ha, hs, setFlowAfterUrl, hF, hfail]
    rw [hrun]
    refine ⟨by simp, ?_⟩
    simp [mainExit, hrun]
  · intro i hne
    cases i
    · by_cases hcr : (interactive_setup inp env).crashed = true
      · exact Or.inr hcr
      · exfalso
        exact hne (by simp [mainExit, hcr])
    · exact Or.inl rfl

/-- Claim C10, witness: concrete failing runs for each endpoint — a
`deleteWebhook` answered `ok:false` with a description, a `getWebhookInfo`
that times out, and a `setWebhook` answered `ok:false` — all print their
failure line and exit 0. -/
theorem api_failure_prints_and_exits_zero_witness :
    (("❌ Failed to delete webhook: "
        ++ pyStr (delete_webhook "12345678901" failEnv.http_delete).2.2)
        ∈ (interactive_setup { sampleInputs with action := .delete, deleteConfirm := true }
            failEnv).lines ∧
      mainExit false { sampleInputs with action := .delete, deleteConfirm := true } failEnv
        = 0) ∧
    (("❌ Failed to get webhook info: "
        ++ pyStr (get_webhook_info "12345678901" failEnv.http_info).2.2)
        ∈ (interactive_setup { sampleInputs with action := .info } failEnv).lines ∧
      mainExit false { sampleInputs with action := .info } failEnv = 0) ∧
    (("❌ Failed to set webhook: "
        ++ pyStr (set_webhook "12345678901" (.str "https://x.test/hook")
            (chosenSecret { sampleInputs with webhook_source := .manual } failEnv)
            failEnv.http_set).2.2)
        ∈ (interactive_setup { sampleInputs with webhook_source := .manual } failEnv).lines ∧
      mainExit false { sampleInputs with webhook_source := .manual } failEnv = 0) :=
  ⟨(api_failure_prints_and_exits_zero _ _).1 ⟨rfl, rfl, rfl⟩,
   (api_failure_prints_and_exits_zero _ _).2.1 ⟨rfl, rfl⟩,
   (api_failure_prints_and_exits_zero _ _).2.2.1 ⟨rfl, rfl, rfl, rfl⟩⟩
